import Mathlib

/-!
# Verification of the Design My Event generation server

Shallow embedding of `src/server/main.py` (FastAPI server orchestrating an
image-generation provider) and proofs of the specified properties.

Modelling conventions:
* Python wall-clock times (`time.time()` floats) are modelled as rationals `ℚ`.
* Python dicts used as mutable maps (`_cache`, `_last_call_by_ip`) are
  modelled as functions `String → Option _`; `d[k] = v` is a pointwise
  update and `d.pop(k, None)` sets the key to `none`.
* Python string methods `.lower()`, `.upper()`, `.strip()`, `.splitlines()`
  and `"sep".join(...)` are modelled by structurally recursive functions on
  the character list, so that all definitions evaluate by kernel reduction.
* The SHA-256 digest in `cache_key` is modelled as the identity on the
  lowered canonical string: the design notes require only that the digest
  be injective in practice (collision resistance), so the canonical string
  itself is the ideal fingerprint.  Equality/inequality of fingerprints is
  stated at that level.
* Network effects are injected: job submission is a function from the
  payload to `Except String SubmitResponse`, each poll `GET` yields
  `Except String PollResponse` (an `Except.error` models an HTTP-level
  exception from `raise_for_status`), and the asset download is a function
  `String → Except String String`.  All Python exceptions become
  `Except.error` carrying the exception message.
-/

namespace DME

set_option linter.unusedVariables false

/-! ## String primitives (models of Python `str` methods) -/

/-- Model of Python `str.lower()` (ASCII case mapping on each character). -/
def lowerStr (s : String) : String := ⟨s.data.map Char.toLower⟩

/-- Model of Python `str.upper()` (ASCII case mapping on each character). -/
def upperStr (s : String) : String := ⟨s.data.map Char.toUpper⟩

/-- Model of Python `str.strip()`: drop whitespace from both ends. -/
def stripStr (s : String) : String :=
  ⟨((s.data.dropWhile Char.isWhitespace).reverse.dropWhile Char.isWhitespace).reverse⟩

/-- Split a character list at newline characters. -/
def splitLinesAux : List Char → List Char → List (List Char)
  | [], acc => [acc.reverse]
  | c :: cs, acc =>
    if c = '\n' then acc.reverse :: splitLinesAux cs [] else splitLinesAux cs (c :: acc)

/-- Model of Python `str.splitlines()` for strings whose only line breaks
are `'\n'` (the only break character occurring in the embedded texts). -/
def splitLines (s : String) : List String :=
  (splitLinesAux s.data []).map (fun l => ⟨l⟩)

/-- Model of Python `"sep".join(items)`. -/
def joinWith (sep : String) : List String → String
  | [] => ""
  | [x] => x
  | x :: y :: xs => x ++ sep ++ joinWith sep (y :: xs)

/-! ## Configuration (environment variables, lines 21–34) -/

/-- The configuration snapshot read from the environment at startup, plus
`REPLICATE_MODE` which line 377 reads per request. -/
structure Config where
  replicate_api_token : String
  replicate_model : String
  replicate_fast_model : String
  replicate_quality_model : String
  cache_ttl_seconds : ℚ
  rate_limit_seconds : ℚ
  dme_image_res : String
  replicate_mode : String

/-- `resolve_model` (line 28–29): the fast model iff the mode is `"fast"`,
else the quality model. -/
def resolve_model (cfg : Config) (mode : String) : String :=
  if mode = "fast" then cfg.replicate_fast_model else cfg.replicate_quality_model

/-- The mode string used by `replicate_generate_image_url` (line 377):
`os.getenv("REPLICATE_MODE", "fast").strip().lower()`. -/
def active_mode (cfg : Config) : String := lowerStr (stripStr cfg.replicate_mode)

/-- The provider model actually used for generation. -/
def active_model (cfg : Config) : String := resolve_model cfg (active_mode cfg)

/-! ## Throttle (lines 74–89) -/

inductive Admit where
  | Allowed
  | Rejected
deriving DecidableEq

/-- `throttle` (lines 74–89): reads `last = _last_call_by_ip.get(ip, 0)`;
if `now - last < RATE_LIMIT_SECONDS` it raises 429 without updating the
map, otherwise it records `_last_call_by_ip[ip] = now`.  Returns the
admission decision together with the updated map. -/
def throttle (m : String → Option ℚ) (rate_limit_seconds : ℚ) (ip : String)
    (now : ℚ) : Admit × (String → Option ℚ) :=
  let last := (m ip).getD 0
  if now - last < rate_limit_seconds then
    (Admit.Rejected, m)
  else
    (Admit.Allowed, fun k => if k = ip then some now else m k)

/-! ## Response cache (lines 39, 100–113) -/

/-- The dict stored in `_cache` for a key: `{"image_data_url": ..., "prompt": ...}`. -/
structure CacheValue where
  image_data_url : String
  prompt : String
deriving DecidableEq

/-- `get_cached` (lines 100–110): absent → `None`; present but
`time.time() - created_ts > CACHE_TTL_SECONDS` → pop the key and return
`None`; otherwise return the stored value.  Returns the result together
with the updated map. -/
def get_cached (c : String → Option (ℚ × CacheValue)) (ttl : ℚ) (now : ℚ)
    (key : String) : Option CacheValue × (String → Option (ℚ × CacheValue)) :=
  match c key with
  | none => (none, c)
  | some (created_ts, value) =>
    if now - created_ts > ttl then
      (none, fun k => if k = key then none else c k)
    else
      (some value, c)

/-- `set_cached` (lines 112–113): `_cache[key] = (time.time(), value)`. -/
def set_cached (c : String → Option (ℚ × CacheValue)) (now : ℚ) (key : String)
    (value : CacheValue) : String → Option (ℚ × CacheValue) :=
  fun k => if k = key then some (now, value) else c k

/-! ## Request model (lines 58–64) -/

/-- `GenerateRequest` (lines 58–64).  `uplighting_colour` is accepted by the
schema but never read afterwards; it is kept for fidelity. -/
structure GenerateRequest where
  mood : String
  layout : String
  room : Option String
  venue_image_url : Option String
  av_equipment : Option String
  uplighting_colour : Option String

/-! ## Cache key (lines 91–98) -/

/-- The canonical string built by `cache_key` (lines 92–97):
`f"{REPLICATE_MODEL}|{DME_IMAGE_RES}|{mood}|{layout}|{room or ''}|{venue_image_url or ''}|{av_equipment or ''}"`. -/
def cache_key_raw (cfg : Config) (p : GenerateRequest) : String :=
  cfg.replicate_model ++ "|" ++ cfg.dme_image_res ++ "|" ++
  p.mood ++ "|" ++ p.layout ++ "|" ++ (p.room.getD "") ++ "|" ++
  (p.venue_image_url.getD "") ++ "|" ++ (p.av_equipment.getD "")

/-- `cache_key` (line 98): `sha256(raw.lower()).hexdigest()`, with the
digest modelled as the identity on the lowered canonical string (see the
module docstring). -/
def cache_key (cfg : Config) (p : GenerateRequest) : String :=
  lowerStr (cache_key_raw cfg p)

/-! ## Designer negative prompt data (lines 119–154) -/

/-- `DESIGNER_NEGATIVE_PROMPTS["global"]` (lines 120–140): the triple-quoted
literal with `.strip()` applied at definition time. -/
def designer_negative_global : String := stripStr "
Do not change the base image
Do not alter room dimensions, walls, ceiling, floor, finishes, or architectural details
Do not change camera position, angle, framing, zoom, or perspective
No missing attendees, empty seats, or sparse areas
No standing attendees, no people facing or looking at the camera
No casual, sloppy, or informal clothing
No bows, chair ties, sashes, or decorative excess
No traditional, cluttered, small scale, or floral-heavy centrepieces
No mismatched table styling or inconsistent centrepieces
No curtains, drapes, blinds, frosting, decals, props, or window obstructions
No changes to exterior view, skyline, water, buildings, weather, or time of day
No additional audio visual equipment
No alternative stage layout, size, colour, or position
No additional lecterns or presenters
No change to LED wall size, placement, colour, or displayed text
No dramatic lighting effects, no coloured spotlights, no haze or fog
No flat lighting or high contrast stylisation
No low resolution, illustrative, stylised, cartoon, or CGI appearance
In no circumstances is the bottom row of the LED wall ever to be lifted above stage level. The LED wall in every instance must start at stage level.
"

/-- `DESIGNER_NEGATIVE_PROMPTS["layout"]["Theatre"]` (lines 143–152). -/
def designer_negative_theatre : String := stripStr "
No tables
No centrepieces
No floral arrangements
No vases
No candles
No tabletop styling elements
No decorative plants
No uplighting applied to plants
"

/-- `DESIGNER_NEGATIVE_PROMPTS.get("layout", {}).get(layout, "")`. -/
def designer_negative_layout (layout : String) : String :=
  if layout = "Theatre" then designer_negative_theatre else ""

/-! ## Negative prompt builder (lines 160–189) -/

/-- `_np_split_lines` (lines 160–163): split into lines, strip each, keep
the non-empty ones (empty input gives the empty list). -/
def np_split_lines (text : String) : List String :=
  if text = "" then []
  else ((splitLines text).map stripStr).filter (fun ln => ln != "")

/-- `_np_dedupe_keep_order` (lines 166–173): drop exact duplicates,
preserving first-seen order. -/
def np_dedupe_keep_order (items : List String) : List String :=
  items.foldl (fun acc it => if acc.contains it then acc else acc ++ [it]) []

/-- `build_designer_negative_prompt` (lines 176–189): global lines, plus the
layout-specific lines when `layout` is truthy, deduplicated, joined with
newlines and stripped. -/
def build_designer_negative_prompt (layout : Option String) : String :=
  let parts := np_split_lines designer_negative_global ++
    (if (layout.getD "") != "" then
       np_split_lines (designer_negative_layout (layout.getD ""))
     else [])
  stripStr (joinWith "\n" (np_dedupe_keep_order parts))

/-! ## AV equipment prompt (lines 191–227) -/

/-- `AV_EQUIPMENT_PROMPTS["IN"]` (lines 192–226), the raw triple-quoted
literal (stripped only at its use site, line 473). -/
def av_equipment_in : String := "
STAGE AND PRESENTER

At the far end of the room, centred in the image, is a clean and minimal black stage.
The stage is four point eight metres wide and two point four metres deep.
The stage brand is Megadeck and the stage is three hundred millimetres high.
The stage has a black stage skirt on all visible sides.
There is a single black tread providing access to the stage.

A single black Lectrum lectern is placed stage right from the perspective of the camera.
A single female presenter is standing at the lectern speaking.
She is dressed in smart casual attire.
She does not look at the camera.


LED WALL

Behind the stage is a single LED wall.
The LED wall is five metres wide and three metres high.
The LED wall starts at stage level with no gap.
The LED wall displays a solid white background with hex colour #ffffff.
The LED wall displays black text reading “AIME 2026”.
        

AUDIO VISUAL CONSTRAINTS

No additional audio visual equipment is present beyond what is specified.


HOUSE AND STAGE LIGHTING AND COLOUR TEMPERATURE

Lighting is a primary driver of mood and depth.
Stage lighting is soft white with a colour temperature between 4000 and 4200 kelvin, providing clarity without harshness.
House lighting is dimmed and warmer, with a colour temperature between 3200 and 3500 kelvin, adding warmth and comfort to the audience areas.
"

/-! ## Prompt builder (lines 235–364) -/

/-- `venue_lock` (lines 236–240). -/
def venue_lock : String :=
"HIGHEST PRIORITY: Keep the exact architecture and the exact camera/view.
Do not change walls, ceiling height, columns, doors, windows, floor edges.
Do not change viewpoint, framing, horizon line, vanishing points, or lens/FOV.
"

/-- `allowed_changes` (lines 242–247). -/
def allowed_changes : String :=
"ALLOWED AND ENCOURAGED:
Apply strong event lighting, decor, furniture, florals, linens, and props.
Make the lighting and styling the dominant visual transformation.
The architecture and camera must remain unchanged.
"

/-- `composition` (lines 249–253). -/
def composition : String :=
"Photorealistic event styling visualisation. High-end professional event photography. Same camera position as the reference image. Realistic materials, realistic lighting, no text, no logos, no watermark."

/-- `mood_map["Editorial"]` (lines 256–267). -/
def mood_editorial : String :=
"EDITORIAL MOOD

Maintain the existing room architecture, layout, lighting, walls, flooring, ceiling, staging, and AV exactly as shown. Do not alter any fixed or structural elements.

Only update table linens, chair covers, and table centrepieces.

Style the event with a design-led, editorial aesthetic focused on intentional moments and strong visual composition. Every styling choice is deliberate, modern, and crafted to photograph beautifully.

Linens: Layered, high-quality fabrics with refined texture and structure — tailored tablecloths or runners in contemporary tones (soft neutrals, stone, charcoal, or muted colour accents). Crisp edges and controlled drape that enhance line and form.

Seat covers: Clean, architectural silhouettes in premium fabrics. Minimal, tailored, and sculptural — no bows, ties, or decorative excess. Colour and texture should support the overall composition, not compete with it.

Table centrepieces: Statement, sculptural floral installations designed as focal points. Florals feel modern and artistic rather than traditional, using intentional form, negative space, and controlled scale. Arrangements are visually striking but refined, never cluttered or oversized.

Table settings: Elevated and precise — refined tableware, layered glassware, and considered spacing that reinforces balance and symmetry.

Styling emphasises layered textures, contrast, and proportion, with a contemporary, gallery-like sensibility. The overall mood is confident, modern, and editorial, created for high-impact event photography.

Ultra-high resolution, photorealistic materials"

/-- `mood_map["Luxe"]` (lines 268–278). -/
def mood_luxe : String :=
"LUXE MOOD

Maintain the existing room architecture, lighting, layout, walls, flooring, ceiling, staging, and AV exactly as shown. Do not alter any structural or spatial elements.

Only update table linens, chair covers, and table centrepieces.

Style the event with a luxury aesthetic that embodies refined glamour, opulence, and comfort. The atmosphere feels lavish yet liveable — sophisticated, inviting, and timeless rather than showy.

Linens: Tailored, high-quality fabrics with beautiful drape — silk-blend or premium textured linens in champagne, light metallic tones with warm undertones. Conveys elegance, subtle luxury, and a refined glow without overpowering the space.

Seat covers: Elegant and minimal, using soft upholstery, velvet, or refined fabric wraps in neutral or charcoal tones. Clean lines, subtle structure, no bows or decorative ties.

Table centrepieces: Sculptural. Elegant high floral arrangements with controlled form, subtle height variation, and restrained colour. Incorporate premium materials such as brushed brass vessels, smoked glass, or stone accents. No oversized, busy, or overly organic compositions.

Styling balances classic elegance with modern simplicity, with subtle Art Deco–inspired geometry (soft curves, symmetry, clean lines) expressed through proportions and finishes, not overt motifs.

Ultra-high resolution, photorealistic materials and lighting. No people, no branding, no text. The overall mood is confident, polished, and quietly indulgent, suitable for premium event marketing visuals."

/-- `mood_map["Minimal"]` (lines 279–286). -/
def mood_minimal : String :=
"MINIMAL MOOD

Maintain the existing room architecture, layout, lighting, walls, flooring, ceiling, staging, and AV exactly as shown. Do not modify any fixed or structural elements.

Only update table linens, chair covers, and table centrepieces.

Style the event with a clean, contemporary aesthetic that prioritises simplicity, restraint, and calm. The overall mood is modern, architectural, and grounded.

Use a limited, cool-toned colour palette inspired by natural stone — muted greys, soft concrete, pale ash, and subtle charcoal accents only. Avoid warm tones or colour contrast.

Ultra-high resolution, photorealistic materials and lighting."

/-- `mood_map["Mediterranean"]` (lines 287–294). -/
def mood_mediterranean : String :=
"MEDITERRANEAN MOOD

Maintain the existing room architecture, layout, lighting, walls, flooring, ceiling, staging, and AV exactly as shown. Do not alter any fixed or structural elements.

Only update table linens, chair covers, and table centrepieces.

Style the event with a warm, relaxed, sun-washed aesthetic inspired by coastal Southern Europe. The mood feels grounded, social, and timeless — effortless rather than styled.

Use a warm, earthy colour palette inspired by natural clay, sunbaked landscapes, and subtle azure Mediterranean water tones. Colours should feel organic and softly weathered, never saturated or bold.

Ultra-high resolution, photorealistic materials and lighting."

/-- `mood_map["Manhattan"]` (lines 295–302). -/
def mood_manhattan : String :=
"MANHATTAN MOOD

Maintain the existing room architecture, layout, lighting, walls, flooring, ceiling, staging, and AV exactly as shown. Do not alter any fixed or structural elements.

Only update table linens, chair covers, and table centrepieces.

Style the event with a Manhattan-inspired luxury aesthetic — bold, sleek, and urban, drawing from New York luxury hotel and penthouse interiors. The mood is confident, high-energy, and polished.

Use a dark, sophisticated colour palette: deep charcoal, black, rich espresso, and graphite, accented with controlled metallic highlights in brushed brass, champagne gold, or polished chrome.

Ultra-high resolution, photorealistic materials."

/-- `mood_map.get(mood, mood)` (line 362): exact-match lookup with fallback
to the unrecognized value itself. -/
def mood_text (mood : String) : String :=
  if mood = "Editorial" then mood_editorial
  else if mood = "Luxe" then mood_luxe
  else if mood = "Minimal" then mood_minimal
  else if mood = "Mediterranean" then mood_mediterranean
  else if mood = "Manhattan" then mood_manhattan
  else mood

/-- `layout_map["Cocktail"]` (lines 306–318). -/
def layout_cocktail : String :=
"SEATING_MODE = \"COCKTAIL\"

The room is already fully set and correctly designed. There are cocktail tables installed throughout the space. No additional furniture or seating of any kind is present. The layout feels full, balanced, and intentionally designed, with no empty central space and no visual voids between tables.

Every cocktail table is occupied. Each table has a minimum of two attendees standing around it, with some tables accommodating three or four attendees. No cocktail table is unoccupied. Attendees are evenly distributed across the room so that crowd density reads as complete, natural, and professionally planned. There are no gaps between table groupings and no areas of unused floor space.

Attendees are standing and engaged in conversation with others at their table. Body language is relaxed, social, and varied. Attendees have natural, happy expressions and realistic body proportions. Attendees are dressed smart casual with refined styling appropriate to a premium corporate environment. Attendees never look at the camera.

Two wait staff are walking through scene holding a drinks tray with half full red and white wine glasses.

Cocktail tables are a strong visual element within the scene. All tables feature luxe, premium styling, including high end linens, elegant centrepieces, and sophisticated corporate event finishes. Centrepieces repeat consistently across the room to create visual rhythm and cohesion. Materials feel tactile, weighted, and realistic, with finishes consistent across all tables.
"

/-- `layout_map["Long Tables"]` (lines 320–332). -/
def layout_long_tables : String :=
"SEATING_MODE = \"LONG_TABLE\"

The room is already fully set and correctly designed. There are long banquet tables installed in the room. No additional tables of any kind are present. The layout feels full, balanced, and intentionally designed.

Attendees are seated at the long tables. Each long table seats exactly ten attendees per side. All seats are occupied. Attendees are evenly distributed along the length of each table so the space reads as complete and professionally planned. There are no gaps, empty seats, or irregularities in the seating arrangement.

Attendees are dressed smart casual with refined styling appropriate to a premium corporate environment. Facial expressions are natural and happy, with realistic body proportions and subtle variation. Attendees are engaged with others seated near them. Attendees never look at the camera.

At two tables wait staff are leaning over and pouring champagne into flutes.

Long tables are a strong visual element within the scene. All tables feature centrepieces. Centrepieces repeat consistently along the length of the tables to create visual rhythm and cohesion. Materials feel realistic, with finishes consistent across all tables.
"

/-- `layout_map["Banquet"]` (lines 334–342). -/
def layout_banquet : String :=
"SEATING_MODE = \"BANQUET\"

The room is already fully set and correctly designed. There are round banquet tables installed in the room. There are EXACTLY six round banquet tables. No additional tables of any kind are present. Fill the space with tables and people at every seat. The room feels full, balanced, and intentionally designed. Each round banquet table seats exactly ten attendees. All seats are occupied. Attendees are seated evenly around each table and engaged in conversation with others at their table. Body language is natural, social, and varied. Attendees are dressed smart casual with refined styling appropriate to a premium corporate environment. Attendees never look at the camera.

At two tables wait staff are leaning over and pouring champagne into flutes.

Tables are a strong visual element within the scene. They feature high end linens with subtle fabric texture, refined centrepieces, and understated sculptural accents. Centrepieces repeat consistently across the room to create visual rhythm. Materials feel tactile, weighted, and realistic.
"

/-- `layout_map["Theatre"]` (lines 344–354). -/
def layout_theatre : String :=
"SEATING_MODE = \"THEATRE\"

The room is already fully set and correctly designed. There is theatre style seating installed in the room. There are EXACTLY sixty theatre seats. No additional seating of any kind is present. The space feels full, balanced, and intentionally designed.

The seating layout is fixed and symmetrical. There is a single central aisle positioned exactly in the middle of the image. The aisle runs in a straight line from the stage toward the camera. On each side of the central aisle are rows of seats. Each row consists of exactly five seats on the left side of the aisle and five seats on the right side of the aisle. Seating rows are evenly spaced, aligned precisely toward the stage, and professionally planned. No seats are missing. No seats are moved. The layout must be preserved exactly as specified.

All sixty seats are occupied. No seats are empty. Attendees are seated facing the stage and evenly distributed across the room so the audience reads as complete, dense, and intentionally arranged. There are no gaps, irregularities, or visual voids in the seating layout.

Attendees are dressed smart casual with refined styling appropriate to a premium corporate environment. Body posture is natural, attentive, and relaxed, with realistic proportions and subtle variation. Attendees remain focused on the stage and never look at the camera.
"

/-- `layout_map.get(layout, layout)` (line 363): exact-match lookup with
fallback to the unrecognized value itself. -/
def layout_text (layout : String) : String :=
  if layout = "Cocktail" then layout_cocktail
  else if layout = "Long Tables" then layout_long_tables
  else if layout = "Banquet" then layout_banquet
  else if layout = "Theatre" then layout_theatre
  else layout

/-- `build_prompt` (lines 235–364): `"\n".join([venue_lock, allowed_changes,
composition, mood_map.get(mood, mood), layout_map.get(layout, layout)])`.
The `room` parameter is accepted (line 235) but never used in the body. -/
def build_prompt (mood : String) (layout : String) (room : Option String) : String :=
  joinWith "\n" [venue_lock, allowed_changes, composition, mood_text mood, layout_text layout]

/-! ## Replicate integration (lines 369–443) -/

/-- `"/" in model` for line 380, on the character list so it evaluates by
kernel reduction. -/
def containsChar (s : String) (c : Char) : Bool := s.data.contains c

/-- The JSON body `payload["input"]` built by lines 391–413; a field is
`none` exactly when the corresponding key is absent from the dict. -/
structure Payload where
  prompt : String
  negative_prompt : Option String := none
  resolution : Option String := none
  image : Option String := none
  image_input : Option (List String) := none
  prompt_strength : Option ℚ := none
deriving DecidableEq

/-- Lines 391–413: base payload with `prompt`; `negative_prompt` added for
the nano-banana models when the built string is non-empty; `resolution`
added only for `google/nano-banana-pro`; reference-image field shape by
model family (`image_input` list for nano-banana, `image` +
`prompt_strength = 0.6` otherwise), only when `venue_image_url` is truthy. -/
def replicate_payload (cfg : Config) (model : String) (prompt : String)
    (venue_image_url : Option String) (layout : Option String) : Payload :=
  let payload : Payload := { prompt := prompt }
  let payload :=
    if model = "google/nano-banana" ∨ model = "google/nano-banana-pro" then
      let negative_prompt := build_designer_negative_prompt layout
      let payload :=
        if negative_prompt != "" then
          { payload with negative_prompt := some negative_prompt }
        else payload
      if model = "google/nano-banana-pro" then
        { payload with
            resolution := some (if cfg.dme_image_res = "1K" then "1K" else "2K") }
      else payload
    else payload
  if (venue_image_url.getD "") != "" then
    if model = "google/nano-banana" ∨ model = "google/nano-banana-pro" then
      { payload with image_input := some [venue_image_url.getD ""] }
    else
      { payload with image := some (venue_image_url.getD ""),
                     prompt_strength := some (0.6 : ℚ) }
  else payload

/-- The JSON of one poll `GET` (lines 427–439): `data.get("status")`,
`data.get("output")` (a list of strings, a single string, or anything
else/absent), and `data.get("error", ...)`. -/
inductive JsonOutput where
  | list (xs : List String)
  | str (s : String)
  | other
deriving DecidableEq

structure PollResponse where
  status : Option String
  output : JsonOutput
  error : Option String
deriving DecidableEq

/-- The submission response (lines 418–422): `pred.get("urls", {}).get("get")`. -/
structure SubmitResponse where
  poll_url : Option String
deriving DecidableEq

/-- The poll loop (lines 424–443).  `poll i` is the outcome of the
`(i+1)`-st `GET` of the poll URL (`Except.error` when the request itself
fails, modelling `g.raise_for_status()`).  The first argument of the pair
is the result; the second counts how many poll `GET`s were performed.
Fuel `240` models `for _ in range(240)`; exhausting it is the
`"Replicate request timed out"` error of line 443. -/
def replicate_poll (poll : Nat → Except String PollResponse) :
    Nat → Nat → Except String String × Nat
  | _, 0 => (Except.error "Replicate request timed out", 0)
  | i, fuel + 1 =>
    match poll i with
    | Except.error e => (Except.error e, 1)
    | Except.ok data =>
      if data.status = some "succeeded" then
        match data.output with
        | JsonOutput.list (x :: _) => (Except.ok x, 1)
        | JsonOutput.list [] => (Except.error "Unexpected Replicate output", 1)
        | JsonOutput.str s => (Except.ok s, 1)
        | JsonOutput.other => (Except.error "Unexpected Replicate output", 1)
      else if data.status = some "failed" ∨ data.status = some "canceled" then
        (Except.error (data.error.getD "Replicate failed"), 1)
      else
        let r := replicate_poll poll (i + 1) fuel
        (r.1, r.2 + 1)

/-- `replicate_generate_image_url` (lines 369–443).  `submit` is the job
creation `POST` (line 416), returning `Except.error` when it fails with a
non-success status.  Returns the result together with the number of poll
`GET`s performed. -/
def replicate_generate_image_url (cfg : Config)
    (submit : Payload → Except String SubmitResponse)
    (poll : Nat → Except String PollResponse)
    (prompt : String) (venue_image_url : Option String) (layout : Option String) :
    Except String String × Nat :=
  if cfg.replicate_api_token = "" then
    (Except.error "REPLICATE_API_TOKEN not configured", 0)
  else
    let model := active_model cfg
    if ¬ containsChar model '/' then
      (Except.error "Resolved model must be 'owner/name'", 0)
    else
      let payload := replicate_payload cfg model prompt venue_image_url layout
      match submit payload with
      | Except.error e => (Except.error e, 0)
      | Except.ok pred =>
        match pred.poll_url with
        | none => (Except.error "Replicate response missing poll URL", 0)
        | some _ => replicate_poll poll 0 240

/-! ## Orchestrator (lines 461–495) -/

/-- `GenerateResponse` (lines 66–69). -/
structure GenerateResponse where
  image_data_url : String
  prompt : String
  cache_hit : Bool
deriving DecidableEq

/-- The HTTP outcome of `POST /api/generate`: a 200 body, or an
`HTTPException(status_code, detail)`. -/
inductive HttpResult where
  | ok (resp : GenerateResponse)
  | httpError (status_code : Nat) (detail : String)
deriving DecidableEq

/-- The process-wide mutable state: `_cache` and `_last_call_by_ip`
(lines 39–40). -/
structure ServerState where
  cache : String → Option (ℚ × CacheValue)
  last_call_by_ip : String → Option ℚ

/-- The prompt submitted to the provider (lines 470–473): the composed
prompt, with the stripped AV block appended iff
`(req.av_equipment or "").strip().upper() == "IN"`. -/
def submitted_prompt (req : GenerateRequest) : String :=
  let prompt := build_prompt req.mood req.layout req.room
  if upperStr (stripStr (req.av_equipment.getD "")) = "IN" then
    prompt ++ "\n\n" ++ stripStr av_equipment_in
  else prompt

/-- `generate` (lines 461–495): throttle → cache lookup → (on miss)
compose → generate → materialize → store.  `ip` is the client key already
derived from the headers (line 75–78); `download` is
`download_image_as_data_url` (effect injected); any exception in the `try`
block becomes the 500 response of lines 491–495. -/
def generate (cfg : Config)
    (submit : Payload → Except String SubmitResponse)
    (poll : Nat → Except String PollResponse)
    (download : String → Except String String)
    (now : ℚ) (ip : String) (req : GenerateRequest) (st : ServerState) :
    HttpResult × ServerState :=
  match throttle st.last_call_by_ip cfg.rate_limit_seconds ip now with
  | (Admit.Rejected, m) =>
    (HttpResult.httpError 429 "Too many requests. Please wait a moment.",
     { st with last_call_by_ip := m })
  | (Admit.Allowed, m) =>
    let st := { st with last_call_by_ip := m }
    let key := cache_key cfg req
    match get_cached st.cache cfg.cache_ttl_seconds now key with
    | (some cached, c) =>
      (HttpResult.ok
         { image_data_url := cached.image_data_url, prompt := cached.prompt,
           cache_hit := true },
       { st with cache := c })
    | (none, c) =>
      let st := { st with cache := c }
      let prompt := submitted_prompt req
      match (replicate_generate_image_url cfg submit poll prompt
               req.venue_image_url (some req.layout)).1 with
      | Except.error e =>
        (HttpResult.httpError 500 ("Image generation failed: " ++ e), st)
      | Except.ok image_url =>
        match download image_url with
        | Except.error e =>
          (HttpResult.httpError 500 ("Image generation failed: " ++ e), st)
        | Except.ok data_url =>
          let resp : CacheValue := { image_data_url := data_url, prompt := prompt }
          (HttpResult.ok
             { image_data_url := data_url, prompt := prompt, cache_hit := false },
           { st with cache := set_cached st.cache now key resp })

end DME



namespace DME

/-! ## Theorems -/

set_option maxRecDepth 8000

/-- C1: Throttle admission is a leaky-bucket-of-one: with no prior record
the first call (at any wall-clock time `now ≥ minInterval`; the unseen
default is timestamp `0`) is Allowed and records `now`; with a recorded
last accepted time `last`, a call with `now - last < minInterval` is
Rejected and leaves the map unchanged, and a call with
`now - last ≥ minInterval` is Allowed and re-records `now`. -/
theorem C1_throttle_leaky_bucket (m : String → Option ℚ) (minInterval : ℚ)
    (ip : String) (now last : ℚ) :
    (m ip = none → minInterval ≤ now →
      throttle m minInterval ip now =
        (Admit.Allowed, fun k => if k = ip then some now else m k)) ∧
    (m ip = some last → now - last < minInterval →
      throttle m minInterval ip now = (Admit.Rejected, m)) ∧
    (m ip = some last → minInterval ≤ now - last →
      throttle m minInterval ip now =
        (Admit.Allowed, fun k => if k = ip then some now else m k)) := by
  refine ⟨fun h0 hge => ?_, fun hs hlt => ?_, fun hs hge => ?_⟩
  · rw [throttle]
    simp only [h0, Option.getD_none]
    rw [if_neg (by rw [sub_zero]; exact not_lt.mpr hge)]
  · rw [throttle]
    simp only [hs, Option.getD_some]
    rw [if_pos hlt]
  · rw [throttle]
    simp only [hs, Option.getD_some]
    rw [if_neg (not_lt.mpr hge)]

/-- C1 witness: a fresh client at time 1000 is Allowed and recorded; a
second call 1 second later (minInterval 5/2) is Rejected with the record
unchanged; a call 3 seconds after the accepted one is Allowed and
re-recorded. -/
theorem C1_throttle_leaky_bucket_witness :
    (throttle (fun _ => none) (5/2) "client" 1000).1 = Admit.Allowed ∧
    (throttle (fun _ => none) (5/2) "client" 1000).2 "client" = some 1000 ∧
    (throttle (fun k => if k = "client" then some 1000 else none) (5/2) "client" 1001).1
      = Admit.Rejected ∧
    (throttle (fun k => if k = "client" then some 1000 else none) (5/2) "client" 1001).2 "client"
      = some 1000 ∧
    (throttle (fun k => if k = "client" then some 1000 else none) (5/2) "client" 1003).1
      = Admit.Allowed ∧
    (throttle (fun k => if k = "client" then some 1000 else none) (5/2) "client" 1003).2 "client"
      = some 1003 := by
  have h1 := (C1_throttle_leaky_bucket (fun _ => none) (5/2) "client" 1000 0).1
    rfl (by norm_num)
  have h2 := (C1_throttle_leaky_bucket
    (fun k => if k = "client" then some 1000 else none) (5/2) "client" 1001 1000).2.1
    (by simp) (by norm_num)
  have h3 := (C1_throttle_leaky_bucket
    (fun k => if k = "client" then some 1000 else none) (5/2) "client" 1003 1000).2.2
    (by simp) (by norm_num)
  refine ⟨?_, ?_, ?_, ?_, ?_, ?_⟩
  · rw [h1]
  · rw [h1]; simp
  · rw [h2]
  · rw [h2]; simp
  · rw [h3]
  · rw [h3]; simp

/-- C2: TTL contract of the cache lookup: absent key → `none` and no
change; entry stored at `T` queried at `now` with `now - T > TTL` →
evicted (that key removed) and `none`; queried with `now - T < TTL` → the
exact stored value, cache unchanged. -/
theorem C2_cache_ttl (c : String → Option (ℚ × CacheValue)) (ttl now T : ℚ)
    (key : String) (v : CacheValue) :
    (c key = none → get_cached c ttl now key = (none, c)) ∧
    (c key = some (T, v) → now - T > ttl →
      get_cached c ttl now key = (none, fun k => if k = key then none else c k)) ∧
    (c key = some (T, v) → now - T < ttl →
      get_cached c ttl now key = (some v, c)) := by
  refine ⟨fun h0 => ?_, fun hs hgt => ?_, fun hs hlt => ?_⟩
  · rw [get_cached, h0]
  · rw [get_cached, hs]
    simp only [if_pos hgt]
  · rw [get_cached, hs]
    simp only [if_neg (not_lt.mpr (le_of_lt hlt))]

/-- C2 witness: an entry stored at time 0 with TTL 86400 is returned at
time 1000; at time 90000 it is evicted and `none` is returned; an absent
key returns `none`. -/
theorem C2_cache_ttl_witness :
    (get_cached (fun _ => none) 86400 1000 "k") = (none, fun _ => none) ∧
    (get_cached (fun k => if k = "k" then some (0, ⟨"d", "p"⟩) else none) 86400 1000 "k").1
      = some ⟨"d", "p"⟩ ∧
    (get_cached (fun k => if k = "k" then some (0, ⟨"d", "p"⟩) else none) 86400 90000 "k").1
      = none ∧
    (get_cached (fun k => if k = "k" then some (0, ⟨"d", "p"⟩) else none) 86400 90000 "k").2 "k"
      = none := by
  have h0 := (C2_cache_ttl (fun _ => none) 86400 1000 0 "k" ⟨"d", "p"⟩).1 rfl
  have h1 := (C2_cache_ttl (fun k => if k = "k" then some (0, ⟨"d", "p"⟩) else none)
    86400 1000 0 "k" ⟨"d", "p"⟩).2.2 (by simp) (by norm_num)
  have h2 := (C2_cache_ttl (fun k => if k = "k" then some (0, ⟨"d", "p"⟩) else none)
    86400 90000 0 "k" ⟨"d", "p"⟩).2.1 (by simp) (by norm_num)
  refine ⟨h0, ?_, ?_, ?_⟩
  · rw [h1]
  · rw [h2]
  · rw [h2]; simp

/-- C10: the lookup's only mutation is lazy eviction of the looked-up key:
an absent key or an entry within TTL leaves the map completely unchanged
(`createdAt` is not refreshed), and an expired entry's eviction removes
exactly that key, leaving every other key untouched. -/
theorem C10_get_cached_frame (c : String → Option (ℚ × CacheValue))
    (ttl now T : ℚ) (key : String) (v : CacheValue) :
    (c key = none → (get_cached c ttl now key).2 = c) ∧
    (c key = some (T, v) → ¬(now - T > ttl) → (get_cached c ttl now key).2 = c) ∧
    (c key = some (T, v) → now - T > ttl →
      (get_cached c ttl now key).2 key = none ∧
      ∀ k, k ≠ key → (get_cached c ttl now key).2 k = c k) := by
  refine ⟨fun h0 => ?_, fun hs hle => ?_, fun hs hgt => ?_⟩
  · rw [get_cached, h0]
  · rw [get_cached, hs]
    simp only [if_neg hle]
  · rw [get_cached, hs]
    simp only [if_pos hgt]
    exact ⟨by simp, fun k hk => by simp [hk]⟩

/-- C10 witness: a read within TTL leaves the map unchanged; an expired
read evicts only the looked-up key and leaves another key intact. -/
theorem C10_get_cached_frame_witness :
    (get_cached (fun k => if k = "k" then some (0, ⟨"d", "p"⟩) else none) 86400 1000 "k").2
      = (fun k => if k = "k" then some (0, ⟨"d", "p"⟩) else none) ∧
    (get_cached
        (fun k => if k = "k" then some (0, ⟨"d", "p"⟩)
                  else if k = "other" then some (5, ⟨"e", "q"⟩) else none)
        86400 90000 "k").2 "k" = none ∧
    (get_cached
        (fun k => if k = "k" then some (0, ⟨"d", "p"⟩)
                  else if k = "other" then some (5, ⟨"e", "q"⟩) else none)
        86400 90000 "k").2 "other" = some (5, ⟨"e", "q"⟩) := by
  have h1 := (C10_get_cached_frame
    (fun k => if k = "k" then some (0, ⟨"d", "p"⟩) else none) 86400 1000 0 "k" ⟨"d", "p"⟩).2.1
    (by simp) (by norm_num)
  have h2 := (C10_get_cached_frame
    (fun k => if k = "k" then some (0, ⟨"d", "p"⟩)
              else if k = "other" then some (5, ⟨"e", "q"⟩) else none)
    86400 90000 0 "k" ⟨"d", "p"⟩).2.2 (by simp) (by norm_num)
  refine ⟨h1, h2.1, ?_⟩
  · rw [h2.2 "other" (by decide)]
    simp

/-- C7 counterexample: the claim asserts that for every mood and layout a
request with a room name yields a different prompt than the same request
without one; at mood `"Minimal"`, layout `"Theatre"` the two prompts are
identical. -/
theorem C7_counterexample :
    build_prompt "Minimal" "Theatre" (some "Grand Hall")
      = build_prompt "Minimal" "Theatre" none := rfl

/-- C7 amended: the composed prompt does not depend on the room name at
all — `build_prompt` accepts the `room` argument but ignores it, so the
prompt with any room name equals the prompt without one. -/
theorem C7_room_ignored (mood layout : String) (room : Option String) :
    build_prompt mood layout room = build_prompt mood layout none := rfl

/-- C9: the prompt submitted to the provider is the composed prompt with
the stripped AV stage/LED-wall block appended exactly when the request's
`av_equipment`, stripped and upper-cased, equals `"IN"`; for any other
value (or an absent field) it is exactly the composed prompt. -/
theorem C9_av_equipment_append (req : GenerateRequest) :
    (upperStr (stripStr (req.av_equipment.getD "")) = "IN" →
      submitted_prompt req
        = build_prompt req.mood req.layout req.room ++ "\n\n" ++ stripStr av_equipment_in ∧
      submitted_prompt req ≠ build_prompt req.mood req.layout req.room) ∧
    (upperStr (stripStr (req.av_equipment.getD "")) ≠ "IN" →
      submitted_prompt req = build_prompt req.mood req.layout req.room) := by
  constructor
  · intro h
    have he : submitted_prompt req
        = build_prompt req.mood req.layout req.room ++ "\n\n" ++ stripStr av_equipment_in := by
      rw [submitted_prompt]
      simp only [if_pos h]
    refine ⟨he, fun heq => ?_⟩
    rw [he] at heq
    have hl := congrArg String.length heq
    rw [String.length_append, String.length_append] at hl
    have h2 : ("\n\n" : String).length = 2 := rfl
    omega
  · intro h
    rw [submitted_prompt]
    simp only [if_neg h]

/-- C9 witness: `" In "` and `"in"` trigger the AV block; `"out"` and an
absent field do not. -/
theorem C9_av_equipment_append_witness :
    submitted_prompt ⟨"Minimal", "Theatre", none, none, some " In ", none⟩
      = build_prompt "Minimal" "Theatre" none ++ "\n\n" ++ stripStr av_equipment_in ∧
    submitted_prompt ⟨"Minimal", "Theatre", none, none, some "in", none⟩
      = build_prompt "Minimal" "Theatre" none ++ "\n\n" ++ stripStr av_equipment_in ∧
    submitted_prompt ⟨"Minimal", "Theatre", none, none, some "out", none⟩
      = build_prompt "Minimal" "Theatre" none ∧
    submitted_prompt ⟨"Minimal", "Theatre", none, none, none, none⟩
      = build_prompt "Minimal" "Theatre" none := by
  refine ⟨((C9_av_equipment_append ⟨"Minimal", "Theatre", none, none, some " In ", none⟩).1
      (by decide)).1,
    ((C9_av_equipment_append ⟨"Minimal", "Theatre", none, none, some "in", none⟩).1
      (by decide)).1,
    (C9_av_equipment_append ⟨"Minimal", "Theatre", none, none, some "out", none⟩).2
      (by decide),
    (C9_av_equipment_append ⟨"Minimal", "Theatre", none, none, none, none⟩).2
      (by decide)⟩

/-- C8: admission is consumed regardless of outcome: if a request passes
the throttle, the final server state records `ip ↦ now` whether the
request ends in a cache hit, a success, or a 500 failure, and any
follow-up from the same client key within `minInterval` is rejected
with the 429 response. -/
theorem C8_admission_consumed (cfg : Config)
    (submit submitB : Payload → Except String SubmitResponse)
    (poll pollB : Nat → Except String PollResponse)
    (download downloadB : String → Except String String)
    (now nowB : ℚ) (ip : String) (req reqB : GenerateRequest) (st : ServerState)
    (h : ¬(now - (st.last_call_by_ip ip).getD 0 < cfg.rate_limit_seconds)) :
    (generate cfg submit poll download now ip req st).2.last_call_by_ip ip = some now ∧
    (nowB - now < cfg.rate_limit_seconds →
      (generate cfg submitB pollB downloadB nowB ip reqB
          (generate cfg submit poll download now ip req st).2).1
        = HttpResult.httpError 429 "Too many requests. Please wait a moment.") := by
  have hth : throttle st.last_call_by_ip cfg.rate_limit_seconds ip now
      = (Admit.Allowed, fun k => if k = ip then some now else st.last_call_by_ip k) := by
    simp only [throttle]
    rw [if_neg h]
  have h1 : (generate cfg submit poll download now ip req st).2.last_call_by_ip ip
      = some now := by
    simp only [generate, hth]
    rcases hGC : get_cached st.cache cfg.cache_ttl_seconds now (cache_key cfg req)
      with ⟨r, c⟩
    rcases r with _ | v
    · rcases hRep : (replicate_generate_image_url cfg submit poll (submitted_prompt req)
          req.venue_image_url (some req.layout)).1 with e | u
      · simp [hRep]
      · rcases hDl : download u with e | d
        · simp [hRep, hDl]
        · simp [hRep, hDl]
    · simp
  refine ⟨h1, fun hlt => ?_⟩
  set st2 := (generate cfg submit poll download now ip req st).2 with hst2
  have hth2 : throttle st2.last_call_by_ip cfg.rate_limit_seconds ip nowB
      = (Admit.Rejected, st2.last_call_by_ip) := by
    simp only [throttle, h1]
    rw [if_pos (by simpa using hlt)]
  simp only [generate, hth2]

/-- C8 witness: a request that fails with a 500 (missing provider token)
still records the client's timestamp, and a follow-up 1 second later is
rejected with 429. -/
theorem C8_admission_consumed_witness :
    (generate ⟨"", "m", "f", "q", 86400, 5/2, "2K", "fast"⟩
        (fun _ => Except.error "s") (fun _ => Except.error "p") (fun _ => Except.error "d")
        1000 "client" ⟨"Minimal", "Theatre", none, none, none, none⟩
        ⟨fun _ => none, fun _ => none⟩).2.last_call_by_ip "client" = some 1000 ∧
    (generate ⟨"", "m", "f", "q", 86400, 5/2, "2K", "fast"⟩
        (fun _ => Except.error "s") (fun _ => Except.error "p") (fun _ => Except.error "d")
        1001 "client" ⟨"Minimal", "Theatre", none, none, none, none⟩
        (generate ⟨"", "m", "f", "q", 86400, 5/2, "2K", "fast"⟩
          (fun _ => Except.error "s") (fun _ => Except.error "p") (fun _ => Except.error "d")
          1000 "client" ⟨"Minimal", "Theatre", none, none, none, none⟩
          ⟨fun _ => none, fun _ => none⟩).2).1
      = HttpResult.httpError 429 "Too many requests. Please wait a moment." := by
  have h := C8_admission_consumed ⟨"", "m", "f", "q", 86400, 5/2, "2K", "fast"⟩
    (fun _ => Except.error "s") (fun _ => Except.error "s")
    (fun _ => Except.error "p") (fun _ => Except.error "p")
    (fun _ => Except.error "d") (fun _ => Except.error "d")
    1000 1001 "client" ⟨"Minimal", "Theatre", none, none, none, none⟩
    ⟨"Minimal", "Theatre", none, none, none, none⟩
    ⟨fun _ => none, fun _ => none⟩ (by simp; norm_num)
  exact ⟨h.1, h.2 (by norm_num)⟩

/-- Two strings with the same character data are equal. -/
theorem string_data_ext {a b : String} (h : a.data = b.data) : a = b :=
  congrArg String.mk h

/-- `String.append` concatenates the character data. -/
theorem data_append (a b : String) : (a ++ b).data = a.data ++ b.data := rfl

/-- `lowerStr` distributes over append. -/
theorem lowerStr_append (a b : String) : lowerStr (a ++ b) = lowerStr a ++ lowerStr b :=
  congrArg String.mk (List.map_append Char.toLower a.data b.data)

/-- Lower-casing fixes the separator. -/
theorem lowerStr_bar : lowerStr "|" = "|" := rfl

/-- The separator's character data. -/
theorem bar_data : ("|" : String).data = ['|'] := rfl

/-- The character data of a fingerprint: the lowered components joined by
the `'|'` separator, right-associated. -/
theorem cache_key_data (cfg : Config) (p : GenerateRequest) :
    (cache_key cfg p).data =
      (lowerStr cfg.replicate_model).data ++ (['|'] ++
      ((lowerStr cfg.dme_image_res).data ++ (['|'] ++
      ((lowerStr p.mood).data ++ (['|'] ++
      ((lowerStr p.layout).data ++ (['|'] ++
      ((lowerStr (p.room.getD "")).data ++ (['|'] ++
      ((lowerStr (p.venue_image_url.getD "")).data ++ (['|'] ++
      (lowerStr (p.av_equipment.getD "")).data))))))))))) := by
  simp only [cache_key, cache_key_raw, lowerStr_append, lowerStr_bar, data_append,
    bar_data, List.append_assoc]

/-- C3 counterexample: the fingerprint hashes `REPLICATE_MODEL`, not the
model actually used for generation (`resolve_model` of the fast/quality
mode): two configurations that differ in the active generation model (the
fast model, with mode `"fast"`) but share `REPLICATE_MODEL` and the
resolution produce the same fingerprint for the same request. -/
theorem C3_counterexample :
    active_model ⟨"tok", "black-forest-labs/flux-schnell", "google/nano-banana",
        "black-forest-labs/flux-dev", 86400, 5/2, "2K", "fast"⟩
      ≠ active_model ⟨"tok", "black-forest-labs/flux-schnell", "google/nano-banana-pro",
        "black-forest-labs/flux-dev", 86400, 5/2, "2K", "fast"⟩ ∧
    cache_key ⟨"tok", "black-forest-labs/flux-schnell", "google/nano-banana",
        "black-forest-labs/flux-dev", 86400, 5/2, "2K", "fast"⟩
        ⟨"Minimal", "Theatre", none, none, none, none⟩
      = cache_key ⟨"tok", "black-forest-labs/flux-schnell", "google/nano-banana-pro",
        "black-forest-labs/flux-dev", 86400, 5/2, "2K", "fast"⟩
        ⟨"Minimal", "Theatre", none, none, none, none⟩ := by
  exact ⟨by decide, rfl⟩

/-- C3 amended: the fingerprint is deterministic and case-insensitive in
the configured `REPLICATE_MODEL`, the resolution setting and every hashed
request field, and (at the level of the canonical digest input) changing
any one of those seven components — with the other six fixed up to case —
changes the fingerprint; the fast/quality-selected model actually used for
generation does not enter the fingerprint (see the counterexample). -/
theorem C3_cache_key_deterministic_sensitive (cfg₁ cfg₂ : Config)
    (p₁ p₂ : GenerateRequest) :
    ((lowerStr cfg₁.replicate_model = lowerStr cfg₂.replicate_model ∧
      lowerStr cfg₁.dme_image_res = lowerStr cfg₂.dme_image_res ∧
      lowerStr p₁.mood = lowerStr p₂.mood ∧
      lowerStr p₁.layout = lowerStr p₂.layout ∧
      lowerStr (p₁.room.getD "") = lowerStr (p₂.room.getD "") ∧
      lowerStr (p₁.venue_image_url.getD "") = lowerStr (p₂.venue_image_url.getD "") ∧
      lowerStr (p₁.av_equipment.getD "") = lowerStr (p₂.av_equipment.getD "")) →
      cache_key cfg₁ p₁ = cache_key cfg₂ p₂) ∧
    ((lowerStr cfg₁.dme_image_res = lowerStr cfg₂.dme_image_res ∧
      lowerStr p₁.mood = lowerStr p₂.mood ∧
      lowerStr p₁.layout = lowerStr p₂.layout ∧
      lowerStr (p₁.room.getD "") = lowerStr (p₂.room.getD "") ∧
      lowerStr (p₁.venue_image_url.getD "") = lowerStr (p₂.venue_image_url.getD "") ∧
      lowerStr (p₁.av_equipment.getD "") = lowerStr (p₂.av_equipment.getD "")) →
      lowerStr cfg₁.replicate_model ≠ lowerStr cfg₂.replicate_model →
      cache_key cfg₁ p₁ ≠ cache_key cfg₂ p₂) ∧
    ((lowerStr cfg₁.replicate_model = lowerStr cfg₂.replicate_model ∧
      lowerStr p₁.mood = lowerStr p₂.mood ∧
      lowerStr p₁.layout = lowerStr p₂.layout ∧
      lowerStr (p₁.room.getD "") = lowerStr (p₂.room.getD "") ∧
      lowerStr (p₁.venue_image_url.getD "") = lowerStr (p₂.venue_image_url.getD "") ∧
      lowerStr (p₁.av_equipment.getD "") = lowerStr (p₂.av_equipment.getD "")) →
      lowerStr cfg₁.dme_image_res ≠ lowerStr cfg₂.dme_image_res →
      cache_key cfg₁ p₁ ≠ cache_key cfg₂ p₂) ∧
    ((lowerStr cfg₁.replicate_model = lowerStr cfg₂.replicate_model ∧
      lowerStr cfg₁.dme_image_res = lowerStr cfg₂.dme_image_res ∧
      lowerStr p₁.layout = lowerStr p₂.layout ∧
      lowerStr (p₁.room.getD "") = lowerStr (p₂.room.getD "") ∧
      lowerStr (p₁.venue_image_url.getD "") = lowerStr (p₂.venue_image_url.getD "") ∧
      lowerStr (p₁.av_equipment.getD "") = lowerStr (p₂.av_equipment.getD "")) →
      lowerStr p₁.mood ≠ lowerStr p₂.mood →
      cache_key cfg₁ p₁ ≠ cache_key cfg₂ p₂) ∧
    ((lowerStr cfg₁.replicate_model = lowerStr cfg₂.replicate_model ∧
      lowerStr cfg₁.dme_image_res = lowerStr cfg₂.dme_image_res ∧
      lowerStr p₁.mood = lowerStr p₂.mood ∧
      lowerStr (p₁.room.getD "") = lowerStr (p₂.room.getD "") ∧
      lowerStr (p₁.venue_image_url.getD "") = lowerStr (p₂.venue_image_url.getD "") ∧
      lowerStr (p₁.av_equipment.getD "") = lowerStr (p₂.av_equipment.getD "")) →
      lowerStr p₁.layout ≠ lowerStr p₂.layout →
      cache_key cfg₁ p₁ ≠ cache_key cfg₂ p₂) ∧
    ((lowerStr cfg₁.replicate_model = lowerStr cfg₂.replicate_model ∧
      lowerStr cfg₁.dme_image_res = lowerStr cfg₂.dme_image_res ∧
      lowerStr p₁.mood = lowerStr p₂.mood ∧
      lowerStr p₁.layout = lowerStr p₂.layout ∧
      lowerStr (p₁.venue_image_url.getD "") = lowerStr (p₂.venue_image_url.getD "") ∧
      lowerStr (p₁.av_equipment.getD "") = lowerStr (p₂.av_equipment.getD "")) →
      lowerStr (p₁.room.getD "") ≠ lowerStr (p₂.room.getD "") →
      cache_key cfg₁ p₁ ≠ cache_key cfg₂ p₂) ∧
    ((lowerStr cfg₁.replicate_model = lowerStr cfg₂.replicate_model ∧
      lowerStr cfg₁.dme_image_res = lowerStr cfg₂.dme_image_res ∧
      lowerStr p₁.mood = lowerStr p₂.mood ∧
      lowerStr p₁.layout = lowerStr p₂.layout ∧
      lowerStr (p₁.room.getD "") = lowerStr (p₂.room.getD "") ∧
      lowerStr (p₁.av_equipment.getD "") = lowerStr (p₂.av_equipment.getD "")) →
      lowerStr (p₁.venue_image_url.getD "") ≠ lowerStr (p₂.venue_image_url.getD "") →
      cache_key cfg₁ p₁ ≠ cache_key cfg₂ p₂) ∧
    ((lowerStr cfg₁.replicate_model = lowerStr cfg₂.replicate_model ∧
      lowerStr cfg₁.dme_image_res = lowerStr cfg₂.dme_image_res ∧
      lowerStr p₁.mood = lowerStr p₂.mood ∧
      lowerStr p₁.layout = lowerStr p₂.layout ∧
      lowerStr (p₁.room.getD "") = lowerStr (p₂.room.getD "") ∧
      lowerStr (p₁.venue_image_url.getD "") = lowerStr (p₂.venue_image_url.getD "")) →
      lowerStr (p₁.av_equipment.getD "") ≠ lowerStr (p₂.av_equipment.getD "") →
      cache_key cfg₁ p₁ ≠ cache_key cfg₂ p₂) := by
  refine ⟨?_, ?_, ?_, ?_, ?_, ?_, ?_, ?_⟩
  · rintro ⟨h1, h2, h3, h4, h5, h6, h7⟩
    refine string_data_ext ?_
    rw [cache_key_data, cache_key_data, congrArg String.data h1, congrArg String.data h2,
      congrArg String.data h3, congrArg String.data h4, congrArg String.data h5,
      congrArg String.data h6, congrArg String.data h7]
  · rintro ⟨h2, h3, h4, h5, h6, h7⟩ hne hkey
    apply hne
    have hd := congrArg String.data hkey
    rw [cache_key_data, cache_key_data, congrArg String.data h2,
      congrArg String.data h3, congrArg String.data h4, congrArg String.data h5,
      congrArg String.data h6, congrArg String.data h7] at hd
    exact string_data_ext (List.append_cancel_right hd)
  · rintro ⟨h1, h3, h4, h5, h6, h7⟩ hne hkey
    apply hne
    have hd := congrArg String.data hkey
    rw [cache_key_data, cache_key_data, congrArg String.data h1,
      congrArg String.data h3, congrArg String.data h4, congrArg String.data h5,
      congrArg String.data h6, congrArg String.data h7] at hd
    iterate 2 replace hd := List.append_cancel_left hd
    exact string_data_ext (List.append_cancel_right hd)
  · rintro ⟨h1, h2, h4, h5, h6, h7⟩ hne hkey
    apply hne
    have hd := congrArg String.data hkey
    rw [cache_key_data, cache_key_data, congrArg String.data h1,
      congrArg String.data h2, congrArg String.data h4, congrArg String.data h5,
      congrArg String.data h6, congrArg String.data h7] at hd
    iterate 4 replace hd := List.append_cancel_left hd
    exact string_data_ext (List.append_cancel_right hd)
  · rintro ⟨h1, h2, h3, h5, h6, h7⟩ hne hkey
    apply hne
    have hd := congrArg String.data hkey
    rw [cache_key_data, cache_key_data, congrArg String.data h1,
      congrArg String.data h2, congrArg String.data h3, congrArg String.data h5,
      congrArg String.data h6, congrArg String.data h7] at hd
    iterate 6 replace hd := List.append_cancel_left hd
    exact string_data_ext (List.append_cancel_right hd)
  · rintro ⟨h1, h2, h3, h4, h6, h7⟩ hne hkey
    apply hne
    have hd := congrArg String.data hkey
    rw [cache_key_data, cache_key_data, congrArg String.data h1,
      congrArg String.data h2, congrArg String.data h3, congrArg String.data h4,
      congrArg String.data h6, congrArg String.data h7] at hd
    iterate 8 replace hd := List.append_cancel_left hd
    exact string_data_ext (List.append_cancel_right hd)
  · rintro ⟨h1, h2, h3, h4, h5, h7⟩ hne hkey
    apply hne
    have hd := congrArg String.data hkey
    rw [cache_key_data, cache_key_data, congrArg String.data h1,
      congrArg String.data h2, congrArg String.data h3, congrArg String.data h4,
      congrArg String.data h5, congrArg String.data h7] at hd
    iterate 10 replace hd := List.append_cancel_left hd
    exact string_data_ext (List.append_cancel_right hd)
  · rintro ⟨h1, h2, h3, h4, h5, h6⟩ hne hkey
    apply hne
    have hd := congrArg String.data hkey
    rw [cache_key_data, cache_key_data, congrArg String.data h1,
      congrArg String.data h2, congrArg String.data h3, congrArg String.data h4,
      congrArg String.data h5, congrArg String.data h6] at hd
    iterate 12 replace hd := List.append_cancel_left hd
    exact string_data_ext hd

/-- C3 witness: case-varied requests under the same configuration share a
fingerprint, and changing only the mood changes it. -/
theorem C3_cache_key_witness :
    cache_key ⟨"tok", "black-forest-labs/flux-schnell", "f", "q", 86400, 5/2, "2K", "fast"⟩
        ⟨"Minimal", "Theatre", some "Main Hall", none, some "IN", none⟩
      = cache_key ⟨"tok", "black-forest-labs/flux-schnell", "f", "q", 86400, 5/2, "2K", "fast"⟩
        ⟨"MINIMAL", "theatre", some "MAIN HALL", none, some "in", none⟩ ∧
    cache_key ⟨"tok", "black-forest-labs/flux-schnell", "f", "q", 86400, 5/2, "2K", "fast"⟩
        ⟨"Minimal", "Theatre", some "Main Hall", none, some "IN", none⟩
      ≠ cache_key ⟨"tok", "black-forest-labs/flux-schnell", "f", "q", 86400, 5/2, "2K", "fast"⟩
        ⟨"Luxe", "Theatre", some "Main Hall", none, some "IN", none⟩ := by
  constructor
  · exact (C3_cache_key_deterministic_sensitive
      ⟨"tok", "black-forest-labs/flux-schnell", "f", "q", 86400, 5/2, "2K", "fast"⟩
      ⟨"tok", "black-forest-labs/flux-schnell", "f", "q", 86400, 5/2, "2K", "fast"⟩
      ⟨"Minimal", "Theatre", some "Main Hall", none, some "IN", none⟩
      ⟨"MINIMAL", "theatre", some "MAIN HALL", none, some "in", none⟩).1
      ⟨rfl, rfl, by decide, by decide, by decide, rfl, by decide⟩
  · exact (C3_cache_key_deterministic_sensitive
      ⟨"tok", "black-forest-labs/flux-schnell", "f", "q", 86400, 5/2, "2K", "fast"⟩
      ⟨"tok", "black-forest-labs/flux-schnell", "f", "q", 86400, 5/2, "2K", "fast"⟩
      ⟨"Minimal", "Theatre", some "Main Hall", none, some "IN", none⟩
      ⟨"Luxe", "Theatre", some "Main Hall", none, some "IN", none⟩).2.2.2.1
      ⟨rfl, rfl, rfl, rfl, rfl, rfl⟩ (by decide)

/-- The composed designer negative prompt is never empty: the global block
always contributes its lines, whatever the layout. -/
theorem build_designer_negative_prompt_ne_empty (layout : Option String) :
    build_designer_negative_prompt layout ≠ "" := by
  rcases layout with _ | l
  · decide
  · by_cases hT : l = "Theatre"
    · subst hT; decide
    · by_cases hE : l = ""
      · subst hE; decide
      · rw [build_designer_negative_prompt, designer_negative_layout]
        simp only [Option.getD_some]
        rw [if_pos (bne_iff_ne.mpr hE), if_neg hT]
        have hz : np_split_lines "" = [] := rfl
        rw [hz, List.append_nil]
        decide

/-- C5 counterexample: for a nano-banana model the payload carries a
negative-prompt field even when no reference image is supplied: the claim
requires the field to be present only when a reference image is supplied. -/
theorem C5_counterexample :
    (replicate_payload ⟨"tok", "m", "google/nano-banana", "q", 86400, 5/2, "2K", "fast"⟩
        (active_model ⟨"tok", "m", "google/nano-banana", "q", 86400, 5/2, "2K", "fast"⟩)
        "prompt" none (some "Banquet")).negative_prompt ≠ none ∧
    (⟨"Minimal", "Banquet", none, none, none, none⟩ : GenerateRequest).venue_image_url
      = none := by
  exact ⟨by decide, rfl⟩

/-- The negative-prompt field of the built payload: present with the
composed designer text exactly for the nano-banana model family. -/
theorem replicate_payload_negative_prompt (cfg : Config) (model prompt : String)
    (venue_image_url layout : Option String) :
    (replicate_payload cfg model prompt venue_image_url layout).negative_prompt =
      (if model = "google/nano-banana" ∨ model = "google/nano-banana-pro" then
        some (build_designer_negative_prompt layout)
      else none) := by
  have hne : (build_designer_negative_prompt layout != "") = true :=
    bne_iff_ne.mpr (build_designer_negative_prompt_ne_empty layout)
  simp only [replicate_payload, hne, if_true]
  split_ifs <;> simp

/-- C5 amended: the payload carries the negative-prompt field exactly when
the active provider model is in the nano-banana family (which supports it);
the presence or absence of a reference image is irrelevant to this field
(the composed negative-prompt text is never empty, so the emptiness guard
never suppresses it). -/
theorem C5_negative_prompt_field (cfg : Config) (model prompt : String)
    (venue_image_url : Option String) (layout : Option String) :
    (replicate_payload cfg model prompt venue_image_url layout).negative_prompt ≠ none ↔
      (model = "google/nano-banana" ∨ model = "google/nano-banana-pro") := by
  rw [replicate_payload_negative_prompt]
  by_cases hm : model = "google/nano-banana" ∨ model = "google/nano-banana-pro"
  · rw [if_pos hm]
    exact ⟨fun _ => hm, fun _ => Option.some_ne_none _⟩
  · rw [if_neg hm]
    exact ⟨fun h => absurd rfl h, fun h => absurd h hm⟩

/-- C5 witness: with a nano-banana-pro active model and a reference image
the field is present; with the default flux model and a reference image it
is absent. -/
theorem C5_negative_prompt_field_witness :
    (replicate_payload ⟨"tok", "m", "f", "q", 86400, 5/2, "2K", "fast"⟩
        "google/nano-banana-pro" "p" (some "http://img") (some "Theatre")).negative_prompt
      ≠ none ∧
    ¬ ((replicate_payload ⟨"tok", "m", "f", "q", 86400, 5/2, "2K", "fast"⟩
        "black-forest-labs/flux-schnell" "p" (some "http://img") none).negative_prompt
      ≠ none) := by
  constructor
  · exact (C5_negative_prompt_field ⟨"tok", "m", "f", "q", 86400, 5/2, "2K", "fast"⟩
      "google/nano-banana-pro" "p" (some "http://img") (some "Theatre")).mpr
      (Or.inr rfl)
  · intro h
    have := (C5_negative_prompt_field ⟨"tok", "m", "f", "q", 86400, 5/2, "2K", "fast"⟩
      "black-forest-labs/flux-schnell" "p" (some "http://img") none).mp h
    rcases this with h1 | h1 <;> exact absurd h1 (by decide)

/-- One non-terminal poll consumes one attempt and one `GET`. -/
theorem replicate_poll_step (poll : Nat → Except String PollResponse) (i fuel : Nat)
    (r : PollResponse) (hr : poll i = Except.ok r)
    (h1 : ¬ r.status = some "succeeded")
    (h2 : ¬ (r.status = some "failed" ∨ r.status = some "canceled")) :
    replicate_poll poll i (fuel + 1)
      = ((replicate_poll poll (i + 1) fuel).1, (replicate_poll poll (i + 1) fuel).2 + 1) := by
  simp only [replicate_poll, hr]
  rw [if_neg h1, if_neg h2]

/-- Skipping `n` non-terminal polls shifts the loop by `n` and adds `n`
to the `GET` count. -/
theorem replicate_poll_skip (poll : Nat → Except String PollResponse) (n : Nat) :
    ∀ i fuel : Nat, n ≤ fuel →
    (∀ j, j < n → ∃ r, poll (i + j) = Except.ok r ∧ ¬ r.status = some "succeeded" ∧
        ¬ (r.status = some "failed" ∨ r.status = some "canceled")) →
    replicate_poll poll i fuel
      = ((replicate_poll poll (i + n) (fuel - n)).1,
         (replicate_poll poll (i + n) (fuel - n)).2 + n) := by
  induction n with
  | zero => intro i fuel _ _; simp
  | succ n ih =>
    intro i fuel hle hpre
    obtain ⟨f, rfl⟩ : ∃ f, fuel = f + 1 := ⟨fuel - 1, by omega⟩
    obtain ⟨r, hr, h1, h2⟩ := hpre 0 (Nat.succ_pos n)
    rw [replicate_poll_step poll i f r hr h1 h2]
    rw [ih (i + 1) f (by omega) (fun j hj => by
      obtain ⟨r2, hr2, hnt⟩ := hpre (j + 1) (by omega)
      exact ⟨r2, by rw [← hr2]; congr 1; omega, hnt⟩)]
    have e1 : i + 1 + n = i + (n + 1) := by omega
    have e2 : f - n = f + 1 - (n + 1) := by omega
    rw [e1, e2, Nat.add_assoc]

/-- A run of non-terminal polls exhausts the whole fuel budget with the
timeout error, performing one `GET` per unit of fuel. -/
theorem replicate_poll_never (poll : Nat → Except String PollResponse) :
    ∀ fuel i : Nat,
    (∀ j, j < fuel → ∃ r, poll (i + j) = Except.ok r ∧ ¬ r.status = some "succeeded" ∧
        ¬ (r.status = some "failed" ∨ r.status = some "canceled")) →
    replicate_poll poll i fuel = (Except.error "Replicate request timed out", fuel) := by
  intro fuel
  induction fuel with
  | zero => intro i _; rfl
  | succ f ih =>
    intro i hpre
    obtain ⟨r, hr, h1, h2⟩ := hpre 0 (Nat.succ_pos f)
    rw [replicate_poll_step poll i f r hr h1 h2]
    rw [ih (i + 1) (fun j hj => by
      obtain ⟨r2, hr2, hnt⟩ := hpre (j + 1) (by omega)
      exact ⟨r2, by rw [← hr2]; congr 1; omega, hnt⟩)]

/-- C4: the poll loop of the generation client: with the first `n` polls
non-terminal (`n < 240`) and the `(n+1)`-st poll `succeeded`, output
`[x, ...]` or the string `x` returns `x` after exactly `n + 1` polls; a
`succeeded` output of any other shape (including the empty list) fails
with the unexpected-output error after `n + 1` polls; `failed` or
`canceled` fails immediately with the provider's reported error text; and
240 non-terminal polls exhaust the budget with the timeout error. -/
theorem C4_poll_termination (poll : Nat → Except String PollResponse) (n : Nat)
    (x : String) (xs : List String) (out : JsonOutput) (err : Option String) :
    (n < 240 →
     (∀ j, j < n → ∃ r, poll j = Except.ok r ∧ ¬ r.status = some "succeeded" ∧
        ¬ (r.status = some "failed" ∨ r.status = some "canceled")) →
     ((poll n = Except.ok ⟨some "succeeded", JsonOutput.list (x :: xs), err⟩ →
        replicate_poll poll 0 240 = (Except.ok x, n + 1)) ∧
      (poll n = Except.ok ⟨some "succeeded", JsonOutput.str x, err⟩ →
        replicate_poll poll 0 240 = (Except.ok x, n + 1)) ∧
      (poll n = Except.ok ⟨some "succeeded", JsonOutput.list [], err⟩ →
        replicate_poll poll 0 240 = (Except.error "Unexpected Replicate output", n + 1)) ∧
      (poll n = Except.ok ⟨some "succeeded", JsonOutput.other, err⟩ →
        replicate_poll poll 0 240 = (Except.error "Unexpected Replicate output", n + 1)) ∧
      (∀ st, (st = "failed" ∨ st = "canceled") →
        poll n = Except.ok ⟨some st, out, err⟩ →
        replicate_poll poll 0 240
          = (Except.error (err.getD "Replicate failed"), n + 1)))) ∧
    ((∀ j, j < 240 → ∃ r, poll j = Except.ok r ∧ ¬ r.status = some "succeeded" ∧
        ¬ (r.status = some "failed" ∨ r.status = some "canceled")) →
      replicate_poll poll 0 240 = (Except.error "Replicate request timed out", 240)) := by
  constructor
  · intro hn hpre
    have hskip := replicate_poll_skip poll n 0 240 (le_of_lt hn)
      (fun j hj => by rw [Nat.zero_add]; exact hpre j hj)
    rw [Nat.zero_add] at hskip
    obtain ⟨f, hf⟩ : ∃ f, 240 - n = f + 1 := ⟨239 - n, by omega⟩
    rw [hf] at hskip
    refine ⟨fun hterm => ?_, fun hterm => ?_, fun hterm => ?_, fun hterm => ?_,
      fun st hst hterm => ?_⟩
    · rw [hskip]
      simp only [replicate_poll, hterm]
      simp [Nat.add_comm]
    · rw [hskip]
      simp only [replicate_poll, hterm]
      simp [Nat.add_comm]
    · rw [hskip]
      simp only [replicate_poll, hterm]
      simp [Nat.add_comm]
    · rw [hskip]
      simp only [replicate_poll, hterm]
      simp [Nat.add_comm]
    · rw [hskip]
      simp only [replicate_poll, hterm]
      have hnsucc : ¬ (some st = some "succeeded") := by
        rcases hst with rfl | rfl <;> decide
      rw [if_neg hnsucc]
      have hterm2 : (some st = some "failed" ∨ some st = some "canceled") := by
        rcases hst with rfl | rfl
        · exact Or.inl rfl
        · exact Or.inr rfl
      rw [if_pos hterm2]
      simp [Nat.add_comm]
  · intro hpre
    exact replicate_poll_never poll 240 0 (fun j hj => by
      rw [Nat.zero_add]; exact hpre j hj)

/-- C4 witness: a provider that is non-terminal on the first two polls and
`succeeded` with `["X"]` on the third yields `X` after exactly 3 polls; a
provider that never terminates yields the timeout error after exactly 240
polls. -/
theorem C4_poll_termination_witness :
    replicate_poll (fun i => Except.ok (if i < 2
        then ⟨some "processing", JsonOutput.other, none⟩
        else ⟨some "succeeded", JsonOutput.list ["X"], none⟩)) 0 240
      = (Except.ok "X", 3) ∧
    replicate_poll (fun _ => Except.ok ⟨some "processing", JsonOutput.other, none⟩) 0 240
      = (Except.error "Replicate request timed out", 240) := by
  constructor
  · exact ((C4_poll_termination (fun i => Except.ok (if i < 2
        then ⟨some "processing", JsonOutput.other, none⟩
        else ⟨some "succeeded", JsonOutput.list ["X"], none⟩)) 2 "X" [] JsonOutput.other
        none).1 (by omega)
      (fun j hj => ⟨⟨some "processing", JsonOutput.other, none⟩,
        by rw [if_pos hj], by decide, by decide⟩)).1
      (by rw [if_neg (by omega)])
  · exact (C4_poll_termination (fun _ => Except.ok
      ⟨some "processing", JsonOutput.other, none⟩) 0 "" [] JsonOutput.other none).2
      (fun j hj => ⟨⟨some "processing", JsonOutput.other, none⟩, rfl, by decide, by decide⟩)

/-- When the pipeline fails (generation or download), `generate` returns
the single 500 response embedding the failure message, the cache is the
post-lookup cache, and the throttle record maps the client to `now`. -/
theorem generate_error_state (cfg : Config)
    (submit : Payload → Except String SubmitResponse)
    (poll : Nat → Except String PollResponse)
    (download : String → Except String String)
    (now : ℚ) (ip : String) (req : GenerateRequest) (st : ServerState) (e : String)
    (hthr : ¬(now - (st.last_call_by_ip ip).getD 0 < cfg.rate_limit_seconds))
    (hmiss : (get_cached st.cache cfg.cache_ttl_seconds now (cache_key cfg req)).1 = none)
    (hfail : (replicate_generate_image_url cfg submit poll (submitted_prompt req)
        req.venue_image_url (some req.layout)).1 = Except.error e ∨
      ∃ u, (replicate_generate_image_url cfg submit poll (submitted_prompt req)
          req.venue_image_url (some req.layout)).1 = Except.ok u ∧
        download u = Except.error e) :
    (generate cfg submit poll download now ip req st).1
        = HttpResult.httpError 500 ("Image generation failed: " ++ e) ∧
    (generate cfg submit poll download now ip req st).2.cache
        = (get_cached st.cache cfg.cache_ttl_seconds now (cache_key cfg req)).2 ∧
    (generate cfg submit poll download now ip req st).2.last_call_by_ip
        = fun k => if k = ip then some now else st.last_call_by_ip k := by
  have hth : throttle st.last_call_by_ip cfg.rate_limit_seconds ip now
      = (Admit.Allowed, fun k => if k = ip then some now else st.last_call_by_ip k) := by
    simp only [throttle]
    rw [if_neg hthr]
  set c2 := (get_cached st.cache cfg.cache_ttl_seconds now (cache_key cfg req)).2 with hc2
  have hgc : get_cached st.cache cfg.cache_ttl_seconds now (cache_key cfg req)
      = (none, c2) := by
    rw [hc2, ← hmiss]
  have heq : generate cfg submit poll download now ip req st
      = (HttpResult.httpError 500 ("Image generation failed: " ++ e),
         { cache := c2,
            last_call_by_ip := fun k => if k = ip then some now else st.last_call_by_ip k }) := by
    rcases hfail with hf | ⟨u, hu, hd⟩
    · simp only [generate, hth]
      rw [hgc]
      simp only [hf]
    · simp only [generate, hth]
      rw [hgc]
      simp only [hu, hd]
  exact ⟨by rw [heq], by rw [heq], by rw [heq]⟩

/-- C6 counterexample: the claim says a failing request leaves the cache
exactly as it was (no entry removed); but when the request's own key holds
an expired entry, the lookup step evicts it and the subsequent failure does
not restore it: before the failing request the key is present, afterwards
it is gone. -/
theorem C6_counterexample :
    (⟨fun k => if k = cache_key (⟨"", "m", "f", "q", 86400, 5/2, "2K", "fast"⟩ : Config) (⟨"Minimal", "Theatre", none, none, none, none⟩ : GenerateRequest) then some (0, ⟨"img", "pr"⟩) else none, fun _ => none⟩ : ServerState).cache (cache_key (⟨"", "m", "f", "q", 86400, 5/2, "2K", "fast"⟩ : Config) (⟨"Minimal", "Theatre", none, none, none, none⟩ : GenerateRequest)) = some (0, ⟨"img", "pr"⟩) ∧
    (generate (⟨"", "m", "f", "q", 86400, 5/2, "2K", "fast"⟩ : Config) (fun _ => Except.error "s") (fun _ => Except.error "p") (fun _ => Except.error "d") 100000 "client" (⟨"Minimal", "Theatre", none, none, none, none⟩ : GenerateRequest) (⟨fun k => if k = cache_key (⟨"", "m", "f", "q", 86400, 5/2, "2K", "fast"⟩ : Config) (⟨"Minimal", "Theatre", none, none, none, none⟩ : GenerateRequest) then some (0, ⟨"img", "pr"⟩) else none, fun _ => none⟩ : ServerState)).1
      = HttpResult.httpError 500 "Image generation failed: REPLICATE_API_TOKEN not configured" ∧
    (generate (⟨"", "m", "f", "q", 86400, 5/2, "2K", "fast"⟩ : Config) (fun _ => Except.error "s") (fun _ => Except.error "p") (fun _ => Except.error "d") 100000 "client" (⟨"Minimal", "Theatre", none, none, none, none⟩ : GenerateRequest) (⟨fun k => if k = cache_key (⟨"", "m", "f", "q", 86400, 5/2, "2K", "fast"⟩ : Config) (⟨"Minimal", "Theatre", none, none, none, none⟩ : GenerateRequest) then some (0, ⟨"img", "pr"⟩) else none, fun _ => none⟩ : ServerState)).2.cache (cache_key (⟨"", "m", "f", "q", 86400, 5/2, "2K", "fast"⟩ : Config) (⟨"Minimal", "Theatre", none, none, none, none⟩ : GenerateRequest)) = none := by
  have hsc : (⟨fun k => if k = cache_key (⟨"", "m", "f", "q", 86400, 5/2, "2K", "fast"⟩ : Config) (⟨"Minimal", "Theatre", none, none, none, none⟩ : GenerateRequest) then some (0, ⟨"img", "pr"⟩) else none, fun _ => none⟩ : ServerState).cache (cache_key (⟨"", "m", "f", "q", 86400, 5/2, "2K", "fast"⟩ : Config) (⟨"Minimal", "Theatre", none, none, none, none⟩ : GenerateRequest)) = some (0, (⟨"img", "pr"⟩ : CacheValue)) := by
    simp
  have hmiss : (get_cached (⟨fun k => if k = cache_key (⟨"", "m", "f", "q", 86400, 5/2, "2K", "fast"⟩ : Config) (⟨"Minimal", "Theatre", none, none, none, none⟩ : GenerateRequest) then some (0, ⟨"img", "pr"⟩) else none, fun _ => none⟩ : ServerState).cache 86400 100000 (cache_key (⟨"", "m", "f", "q", 86400, 5/2, "2K", "fast"⟩ : Config) (⟨"Minimal", "Theatre", none, none, none, none⟩ : GenerateRequest))).1 = none := by
    simp [get_cached]
    split_ifs with hx
    · rfl
    · exact absurd (by norm_num : (86400 : ℚ) < 100000) hx
  have h := generate_error_state (⟨"", "m", "f", "q", 86400, 5/2, "2K", "fast"⟩ : Config) (fun _ => Except.error "s") (fun _ => Except.error "p") (fun _ => Except.error "d") 100000 "client" (⟨"Minimal", "Theatre", none, none, none, none⟩ : GenerateRequest) (⟨fun k => if k = cache_key (⟨"", "m", "f", "q", 86400, 5/2, "2K", "fast"⟩ : Config) (⟨"Minimal", "Theatre", none, none, none, none⟩ : GenerateRequest) then some (0, ⟨"img", "pr"⟩) else none, fun _ => none⟩ : ServerState)
    "REPLICATE_API_TOKEN not configured" (by simp; norm_num) hmiss (Or.inl rfl)
  refine ⟨hsc, by rw [h.1]; rfl, ?_⟩
  rw [h.2.1]
  simp [get_cached]
  split_ifs with hx
  · rfl
  · exact absurd (by norm_num : (86400 : ℚ) < 100000) hx

/-- C6 amended: a failing request (generation or materialization, any
reason) yields the single 500 response embedding the failure message; no
cache entry is added or modified and no other key is removed; the only
possible change is the lazy eviction, during lookup, of an already-expired
entry under the request's own fingerprint — if the entry under that key is
absent or unexpired, the cache is left exactly as it was. -/
theorem C6_failure_response_and_cache (cfg : Config)
    (submit : Payload → Except String SubmitResponse)
    (poll : Nat → Except String PollResponse)
    (download : String → Except String String)
    (now : ℚ) (ip : String) (req : GenerateRequest) (st : ServerState) (e : String)
    (hthr : ¬(now - (st.last_call_by_ip ip).getD 0 < cfg.rate_limit_seconds))
    (hmiss : (get_cached st.cache cfg.cache_ttl_seconds now (cache_key cfg req)).1 = none)
    (hfail : (replicate_generate_image_url cfg submit poll (submitted_prompt req)
        req.venue_image_url (some req.layout)).1 = Except.error e ∨
      ∃ u, (replicate_generate_image_url cfg submit poll (submitted_prompt req)
          req.venue_image_url (some req.layout)).1 = Except.ok u ∧
        download u = Except.error e) :
    (generate cfg submit poll download now ip req st).1
        = HttpResult.httpError 500 ("Image generation failed: " ++ e) ∧
    (∀ k, k ≠ cache_key cfg req →
      (generate cfg submit poll download now ip req st).2.cache k = st.cache k) ∧
    ((∀ T v, st.cache (cache_key cfg req) = some (T, v) →
        ¬(now - T > cfg.cache_ttl_seconds)) →
      (generate cfg submit poll download now ip req st).2.cache = st.cache) ∧
    ((generate cfg submit poll download now ip req st).2.cache (cache_key cfg req)
        = st.cache (cache_key cfg req) ∨
     ((generate cfg submit poll download now ip req st).2.cache (cache_key cfg req) = none ∧
      ∃ T v, st.cache (cache_key cfg req) = some (T, v) ∧
        now - T > cfg.cache_ttl_seconds)) := by
  obtain ⟨h1, h2, _⟩ := generate_error_state cfg submit poll download now ip req st e
    hthr hmiss hfail
  rcases hsc : st.cache (cache_key cfg req) with _ | ⟨T, v⟩
  · have hc : (get_cached st.cache cfg.cache_ttl_seconds now (cache_key cfg req)).2
        = st.cache := by
      simp only [get_cached, hsc]
    refine ⟨h1, fun k _ => ?_, fun _ => ?_, Or.inl ?_⟩
    · rw [h2, hc]
    · rw [h2, hc]
    · rw [h2, hc]
      exact hsc
  · by_cases hexp : now - T > cfg.cache_ttl_seconds
    · have hc : (get_cached st.cache cfg.cache_ttl_seconds now (cache_key cfg req)).2
          = fun k => if k = cache_key cfg req then none else st.cache k := by
        simp only [get_cached, hsc]
        rw [if_pos hexp]
      refine ⟨h1, fun k hk => ?_, fun hno => ?_, Or.inr ⟨?_, T, v, rfl, hexp⟩⟩
      · rw [h2, hc]
        simp [hk]
      · exact absurd hexp (hno T v rfl)
      · rw [h2, hc]
        simp
    · exfalso
      have hv : (get_cached st.cache cfg.cache_ttl_seconds now (cache_key cfg req)).1
          = some v := by
        simp only [get_cached, hsc]
        rw [if_neg hexp]
      rw [hmiss] at hv
      exact Option.noConfusion hv

/-- C6 witness: with an empty cache, a failing request answers 500 with
the embedded message and leaves the cache exactly as it was. -/
theorem C6_failure_response_and_cache_witness :
    (generate (⟨"", "m", "f", "q", 86400, 5/2, "2K", "fast"⟩ : Config) (fun _ => Except.error "s") (fun _ => Except.error "p") (fun _ => Except.error "d") 1000 "client" (⟨"Minimal", "Theatre", none, none, none, none⟩ : GenerateRequest) (⟨fun _ => none, fun _ => none⟩ : ServerState)).1
      = HttpResult.httpError 500 "Image generation failed: REPLICATE_API_TOKEN not configured" ∧
    (generate (⟨"", "m", "f", "q", 86400, 5/2, "2K", "fast"⟩ : Config) (fun _ => Except.error "s") (fun _ => Except.error "p") (fun _ => Except.error "d") 1000 "client" (⟨"Minimal", "Theatre", none, none, none, none⟩ : GenerateRequest) (⟨fun _ => none, fun _ => none⟩ : ServerState)).2.cache = (⟨fun _ => none, fun _ => none⟩ : ServerState).cache := by
  have h := C6_failure_response_and_cache (⟨"", "m", "f", "q", 86400, 5/2, "2K", "fast"⟩ : Config) (fun _ => Except.error "s") (fun _ => Except.error "p") (fun _ => Except.error "d") 1000 "client" (⟨"Minimal", "Theatre", none, none, none, none⟩ : GenerateRequest) (⟨fun _ => none, fun _ => none⟩ : ServerState)
    "REPLICATE_API_TOKEN not configured" (by simp; norm_num) rfl (Or.inl rfl)
  exact ⟨by rw [h.1]; rfl, h.2.2.1 (fun T v hv => absurd hv (by simp))⟩

end DME
